import Mathlib

/-!
Shallow embedding of the `studentwallet` repository's service core:
the `WhereBuilder` query-filter construction, the `StudentwalletService`
read path (`findById`, `find`, `count`) and the `StudentwalletWriteService`
write path (`create`, `update`, `addFile`) with its optimistic-locking
version check.  The persistence layer (Prisma over PostgreSQL) is modelled
as an explicit in-memory database state threaded through the operations;
each write returns the (possibly unchanged) state together with an
`Except` result, mirroring the all-or-nothing transaction semantics.
-/

namespace Studentwallet

/-- Equality of `Except` results is decidable when both components have
decidable equality; used to evaluate concrete service calls. -/
instance {ε α : Type} [DecidableEq ε] [DecidableEq α] : DecidableEq (Except ε α) := fun
  | .error a, .error b =>
    match decEq a b with
    | isTrue h => isTrue (h ▸ rfl)
    | isFalse h => isFalse (fun hc => h (Except.error.inj hc))
  | .error _, .ok _ => isFalse (fun hc => Except.noConfusion hc)
  | .ok _, .error _ => isFalse (fun hc => Except.noConfusion hc)
  | .ok a, .ok b =>
    match decEq a b with
    | isTrue h => isTrue (h ▸ rfl)
    | isFalse h => isFalse (fun hc => h (Except.ok.inj hc))

/-- A JavaScript value arriving in a search-parameter record: query-string
parsing yields strings, while typed callers may pass numbers
(`Suchparameter` declares `id` and `semester` as `number`). -/
inductive JsValue where
  | str (s : String)
  | num (n : Int)
deriving DecidableEq, Repr

/-- The string a JavaScript value yields under `.toString()` (radix 10 for
numbers, identity for strings). -/
def JsValue.toStr : JsValue → String
  | .str s => s
  | .num n => toString n

/-- Numeric value of a decimal digit character. -/
def digitVal (c : Char) : Nat := c.toNat - '0'.toNat

/-- Value of a list of decimal digit characters read left to right. -/
def digitsVal (ds : List Char) : Nat :=
  ds.foldl (fun n c => n * 10 + digitVal c) 0

/-- Whitespace characters skipped by JavaScript's `Number.parseInt`. -/
def jsWhitespace (c : Char) : Bool :=
  c == ' ' || c == '\t' || c == '\n' || c == '\r' || c == '\x0b' || c == '\x0c'

/-- Longest leading run of decimal digits, as consumed by
`Number.parseInt(s, 10)`; `none` when no digit is found (NaN). -/
def parseDigits (l : List Char) : Option Nat :=
  if (l.takeWhile Char.isDigit).isEmpty then none
  else some (digitsVal (l.takeWhile Char.isDigit))

/-- JavaScript `Number.parseInt(s, 10)`: skip leading whitespace, read an
optional sign, then the longest run of decimal digits; `none` models NaN. -/
def jsParseInt (s : String) : Option Int :=
  match s.data.dropWhile jsWhitespace with
  | [] => none
  | c :: rest =>
    if c == '-' then (parseDigits rest).map (fun n => -(n : Int))
    else if c == '+' then (parseDigits rest).map (fun n => (n : Int))
    else (parseDigits (c :: rest)).map (fun n => (n : Int))

/-- Whether `l` starts with the character list `p`. -/
def startsWithChars : List Char → List Char → Bool
  | _, [] => true
  | [], _ :: _ => false
  | a :: as, b :: bs => a == b && startsWithChars as bs

/-- Whether `p` occurs as a contiguous run somewhere in `l`. -/
def hasSubstrChars (p : List Char) : List Char → Bool
  | [] => startsWithChars [] p
  | c :: t => startsWithChars (c :: t) p || hasSubstrChars p t

/-- Case-insensitive substring test, the semantics of a Prisma `contains`
filter with `QueryMode.insensitive`. -/
def hasSubstrCI (hay pat : String) : Bool :=
  hasSubstrChars (pat.data.map Char.toLower) (hay.data.map Char.toLower)

/-- The three values of the `transaction_type` enumeration
(`TransactionType` in the generated Prisma enums). -/
def transactionTypeValues : List String := ["LOAD", "SPEND", "REFUND"]

/-- A wallet transaction row; only the `type` column takes part in the
query predicates the services build. -/
structure Transaction where
  type : String
deriving DecidableEq, Repr

/-- A `student` table row: generated integer id, optimistic-locking version
counter (starts at 0), the searchable columns, and the student's
transactions (the 1:N relation the `art` filter joins against).
The `created_at`/`updated_at` timestamp columns take part in no service
logic and are not modelled. -/
structure Student where
  id : Int
  version : Nat
  matriculationNumber : String
  firstName : String
  lastName : String
  email : String
  semester : Int
  transactions : List Transaction
deriving DecidableEq, Repr

/-- A `studentwallet_file` row: one stored binary per student. -/
structure StudentwalletFile where
  filename : String
  data : List Nat
  mimetype : Option String
  studentId : Int
deriving DecidableEq, Repr

/-- The persistent state: the student rows (with their transactions), the
file rows, and the next value of the id sequence. -/
structure DB where
  students : List Student
  files : List StudentwalletFile
  nextId : Int
deriving DecidableEq, Repr

/-- The runtime search-parameter record, as the query string produces it: a
JavaScript object, i.e. an association of property names to values.  Unlike
the declared `Suchparameter` type it may carry arbitrary property names,
which is exactly what `#checkKeys` guards against. -/
abbrev Params := List (String × JsValue)

/-- Property access on the search-parameter object (first binding wins;
JavaScript objects hold each key at most once). -/
def getParam (sp : Params) (k : String) : Option JsValue :=
  (sp.find? (fun p => p.1 == k)).map Prod.snd

/-- An `{ equals: n }` filter on an integer column. -/
structure IntEqFilter where
  equals : Int
deriving DecidableEq, Repr

/-- A case-insensitive `{ contains: s, mode: insensitive }` filter on a
text column. -/
structure ContainsFilter where
  contains : String
deriving DecidableEq, Repr

/-- A `{ some: { type: { equals: v } } }` filter on the transactions
relation; the value is passed through unvalidated by the builder. -/
structure TransactionsFilter where
  someTypeEquals : JsValue
deriving DecidableEq, Repr

/-- The `StudentWhereInput` predicate object the builder produces. -/
structure StudentWhereInput where
  id : Option IntEqFilter := none
  matriculationNumber : Option ContainsFilter := none
  firstName : Option ContainsFilter := none
  lastName : Option ContainsFilter := none
  email : Option ContainsFilter := none
  semester : Option IntEqFilter := none
  transactions : Option TransactionsFilter := none
deriving DecidableEq, Repr

namespace WhereBuilder

/-- `WhereBuilder.#toInt`: a number passes through, a string goes through
`Number.parseInt(value, 10)`, and a NaN outcome yields `undefined`. -/
def toInt : Option JsValue → Option Int
  | none => none
  | some (JsValue.num n) => some n
  | some (JsValue.str s) => jsParseInt s

/-- `WhereBuilder.build`: destructure the seven known properties of the
search-parameter object and accumulate one filter per defined property;
`id` and `semester` are silently dropped when integer parsing fails, the
text columns get case-insensitive `contains` filters, and `art` is passed
through as a transactions-relation filter without any validation. -/
def build (sp : Params) : StudentWhereInput :=
  let id := getParam sp "id"
  let matriculationNumber := getParam sp "matriculationNumber"
  let firstName := getParam sp "firstName"
  let lastName := getParam sp "lastName"
  let email := getParam sp "email"
  let semester := getParam sp "semester"
  let art := getParam sp "art"
  { id := (toInt id).map (fun n => { equals := n }),
    matriculationNumber :=
      matriculationNumber.map (fun v => { contains := v.toStr }),
    firstName := firstName.map (fun v => { contains := v.toStr }),
    lastName := lastName.map (fun v => { contains := v.toStr }),
    email := email.map (fun v => { contains := v.toStr }),
    semester := (toInt semester).map (fun n => { equals := n }),
    transactions := art.map (fun v => { someTypeEquals := v }) }

end WhereBuilder

/-- Row semantics of a `StudentWhereInput` predicate as the store executes
it: every present filter must hold; an absent filter matches everything. -/
def matchesWhere (w : StudentWhereInput) (s : Student) : Bool :=
  (w.id.all fun f => s.id == f.equals) &&
  (w.matriculationNumber.all fun f => hasSubstrCI s.matriculationNumber f.contains) &&
  (w.firstName.all fun f => hasSubstrCI s.firstName f.contains) &&
  (w.lastName.all fun f => hasSubstrCI s.lastName f.contains) &&
  (w.email.all fun f => hasSubstrCI s.email f.contains) &&
  (w.semester.all fun f => s.semester == f.equals) &&
  (w.transactions.all fun f =>
    s.transactions.any fun t => JsValue.str t.type == f.someTypeEquals)

/-- Error taxonomy raised by the services.  `notFound` is
`NotFoundException`; the three version errors come from `exceptions.ts`;
`constraintViolation` stands for an error the store itself raises inside a
transaction (a NOT NULL or foreign-key constraint), which the services do
not catch. -/
inductive Err where
  | notFound
  | matrNrExists (matriculationNumber : String)
  | versionInvalid (version : String)
  | versionOutdated (version : Int)
  | constraintViolation
deriving DecidableEq, Repr

/-- Modelled from the spec: `Pageable` (the `pageable.ts` helper is not
among the given sources) carries the page number and the page size;
`find` applies offset `number * size` and limit `size`. -/
structure Pageable where
  number : Nat
  size : Nat
deriving DecidableEq, Repr

/-- Modelled from the spec: `Slice` (the `slice.ts` type is not among the
given sources) is a page of results together with a total element count. -/
structure Slice where
  content : List Student
  totalElements : Nat
deriving DecidableEq, Repr

/-- Valid search-parameter names (`suchparameterNamen` in
`suchparameter.ts`); `art` is accepted separately by `#checkKeys`. -/
def suchparameterNamen : List String :=
  ["id", "matriculationNumber", "firstName", "lastName", "email", "semester"]

namespace StudentwalletService

/-- `StudentwalletService.count`: the total student row count,
unconditionally (no filter). -/
def count (db : DB) : Nat := db.students.length

/-- `StudentwalletService.findById`: the student with the given id,
`NotFoundException` when no row matches. -/
def findById (db : DB) (id : Int) : Except Err Student :=
  match db.students.find? (fun s => s.id == id) with
  | none => .error .notFound
  | some student => .ok student

/-- `StudentwalletService.#checkKeys`: every supplied parameter name is one
of `suchparameterNamen` or the literal `art`. -/
def checkKeys (keys : List String) : Bool :=
  keys.all (fun key => suchparameterNamen.contains key || key == "art")

/-- `StudentwalletService.#checkEnums`: an absent `art` passes; a present
one must be one of the `TransactionType` string values (a non-string value
is never in the string array). -/
def checkEnums (sp : Params) : Bool :=
  match getParam sp "art" with
  | none => true
  | some (JsValue.str s) => transactionTypeValues.contains s
  | some (JsValue.num _) => false

/-- The page the store returns for a predicate: filter, then offset
`number * size`, then limit `size` (Prisma `findMany` with `skip`/`take`). -/
def pageFor (db : DB) (w : StudentWhereInput) (pg : Pageable) : List Student :=
  ((db.students.filter (matchesWhere w)).drop (pg.number * pg.size)).take pg.size

/-- `StudentwalletService.#findAll`: unfiltered page (the bound variable
`studenten` of the source is inlined); `NotFoundException` on an empty
page, otherwise a slice with the unconditional total count. -/
def findAll (db : DB) (pg : Pageable) : Except Err Slice :=
  if ((db.students.drop (pg.number * pg.size)).take pg.size).isEmpty then .error .notFound
  else .ok { content := (db.students.drop (pg.number * pg.size)).take pg.size,
             totalElements := count db }

/-- `StudentwalletService.find`: undefined or empty search parameters
delegate to `#findAll`; otherwise the keys and the `art` value are
validated (failure is `NotFoundException`), the predicate is built, the
page fetched, an empty page is `NotFoundException`, and a non-empty page
becomes a slice with the unconditional total count. -/
def find (db : DB) (sp? : Option Params) (pg : Pageable) : Except Err Slice :=
  match sp? with
  | none => findAll db pg
  | some sp =>
    if sp.isEmpty then findAll db pg
    else if !checkKeys (sp.map Prod.fst) || !checkEnums sp then .error .notFound
    else if (pageFor db (WhereBuilder.build sp) pg).isEmpty then .error .notFound
    else .ok { content := pageFor db (WhereBuilder.build sp) pg,
               totalElements := count db }

end StudentwalletService

/-- `StudentCreate` payload (`Prisma.StudentCreateInput`): the scalar
columns plus optional nested transaction creates; `#validateCreate`
destructures `matriculationNumber` as possibly undefined, so it is an
`Option` here. -/
structure StudentCreate where
  matriculationNumber : Option String
  firstName : String
  lastName : String
  email : String
  semester : Int
  transactions : List Transaction := []
deriving DecidableEq, Repr

/-- `StudentUpdate` patch (`Prisma.StudentUpdateInput`): each present field
replaces the stored value.  The `version` field is not client-settable
here because `update` overwrites it with `increment: 1` unconditionally. -/
structure StudentUpdate where
  matriculationNumber : Option String := none
  firstName : Option String := none
  lastName : Option String := none
  email : Option String := none
  semester : Option Int := none
deriving DecidableEq, Repr

/-- `UpdateParams`: id (possibly undefined), patch, and the version token
from the `If-Match` header. -/
structure UpdateParams where
  id : Option Int
  student : StudentUpdate
  version : String
deriving DecidableEq, Repr

/-- Model of the external `file-type` library's `fileTypeFromBuffer`:
sniff the MIME type from the leading magic bytes of the content; `none`
when the signature is unknown. -/
def fileTypeFromBuffer (data : List Nat) : Option String :=
  match data with
  | 0x89 :: 0x50 :: 0x4e :: 0x47 :: _ => some "image/png"
  | 0xff :: 0xd8 :: 0xff :: _ => some "image/jpeg"
  | 0x25 :: 0x50 :: 0x44 :: 0x46 :: _ => some "application/pdf"
  | _ => none

namespace StudentwalletWriteService

/-- `StudentwalletWriteService.VERSION_PATTERN.test`: the regular
expression is anchored only at the start and allows one to three digits,
so it matches exactly the strings beginning with a double quote, one to
three decimal digits, and a closing double quote — whatever follows the
closing quote is ignored, and a fourth leading digit makes every
backtracking alternative fail.  The disjunction mirrors the quantifier
`{1,3}`: after each digit the engine may close with `"` or consume
another digit. -/
def versionPatternTest (s : String) : Bool :=
  match s.data with
  | c0 :: c1 :: rest =>
    c0 == '"' && c1.isDigit &&
      (match rest with
       | c2 :: rest2 =>
         c2 == '"' ||
           (c2.isDigit &&
             (match rest2 with
              | c3 :: rest3 => c3 == '"' || (c3.isDigit && rest3.head? == some '"')
              | [] => false))
       | [] => false)
  | _ => false

/-- JavaScript `s.slice(1, -1)`: the characters from index 1 up to, not
including, the last one. -/
def sliceOneToNegOne (s : String) : String :=
  String.mk ((s.data.drop 1).dropLast)

/-- `StudentwalletWriteService.#validateCreate`: with no matriculation
number supplied the check passes; otherwise a count query over rows with
that number, and a positive count raises `MatrNrExistsException`. -/
def validateCreate (db : DB) (c : StudentCreate) : Except Err Unit :=
  match c.matriculationNumber with
  | none => .ok ()
  | some m =>
    let anzahl := (db.students.filter (fun s => s.matriculationNumber == m)).length
    if anzahl > 0 then .error (.matrNrExists m) else .ok ()

/-- `StudentwalletWriteService.create`: validate, then insert the new row
(version 0, generated id) in a transaction and return the generated id.
Inserting a payload without a matriculation number violates the column's
NOT NULL constraint, which the store raises and the transaction rolls
back; the store's unique constraints on email are outside the service's
error taxonomy and are not modelled. -/
def create (db : DB) (c : StudentCreate) : DB × Except Err Int :=
  match validateCreate db c with
  | .error e => (db, .error e)
  | .ok _ =>
    match c.matriculationNumber with
    | none => (db, .error .constraintViolation)
    | some m =>
      let studentDb : Student :=
        { id := db.nextId, version := 0, matriculationNumber := m,
          firstName := c.firstName, lastName := c.lastName,
          email := c.email, semester := c.semester,
          transactions := c.transactions }
      ({ db with students := db.students ++ [studentDb],
                 nextId := db.nextId + 1 },
       .ok studentDb.id)

/-- `StudentwalletWriteService.#validateUpdate`: test the version token
against `VERSION_PATTERN` (failure raises `VersionInvalidException`),
parse `versionStr.slice(1, -1)` with `Number.parseInt`, re-fetch the
student via `findById` (absence raises `NotFoundException`), and raise
`VersionOutdatedException` when the parsed version is strictly below the
persisted one.  A NaN parse outcome compares as false in JavaScript and
therefore passes, mirrored by the `none` branch. -/
def validateUpdate (db : DB) (id : Int) (versionStr : String) : Except Err Unit :=
  if !versionPatternTest versionStr then .error (.versionInvalid versionStr)
  else
    let version := jsParseInt (sliceOneToNegOne versionStr)
    match StudentwalletService.findById db id with
    | .error e => .error e
    | .ok buchDb =>
      match version with
      | some v =>
        if v < (buchDb.version : Int) then .error (.versionOutdated v) else .ok ()
      | none => .ok ()

/-- The row produced by `tx.student.update`: present patch fields replace
the stored columns and `version: { increment: 1 }` bumps the counter. -/
def applyPatch (patch : StudentUpdate) (s : Student) : Student :=
  { s with
    matriculationNumber := patch.matriculationNumber.getD s.matriculationNumber,
    firstName := patch.firstName.getD s.firstName,
    lastName := patch.lastName.getD s.lastName,
    email := patch.email.getD s.email,
    semester := patch.semester.getD s.semester,
    version := s.version + 1 }

/-- `StudentwalletWriteService.update`: an undefined id raises
`NotFoundException`; `#validateUpdate` runs next; then the patched row
(with the incremented version) replaces the stored one in a transaction
and the new version number is returned.  `tx.student.update` itself raises
when the row has vanished between the validation read and the write. -/
def update (db : DB) (p : UpdateParams) : DB × Except Err Nat :=
  match p.id with
  | none => (db, .error .notFound)
  | some id =>
    match validateUpdate db id p.version with
    | .error e => (db, .error e)
    | .ok _ =>
      let students :=
        db.students.map (fun s => if s.id == id then applyPatch p.student s else s)
      match students.find? (fun s => s.id == id) with
      | none => (db, .error .notFound)
      | some studentUpdated =>
        ({ db with students := students }, .ok studentUpdated.version)

/-- `StudentwalletWriteService.addFile`: inside one transaction, look the
student up, delete any stored file for the student, sniff the MIME type
from the bytes, and insert the new file row.  The `findUnique` call is not
awaited, so the local variable holds a pending promise, never `null`: the
`NotFoundException` branch guarding it is unreachable.  For an id with no
student row the insert violates the file table's foreign-key constraint,
the store aborts, and the whole transaction (the delete included) rolls
back. -/
def addFile (db : DB) (studentId : Int) (data : List Nat) (filename : String)
    (size : Nat) : DB × Except Err StudentwalletFile :=
  let _ := size
  let filesAfterDelete := db.files.filter (fun f => !(f.studentId == studentId))
  let mimetype := fileTypeFromBuffer data
  let studentwalletFile : StudentwalletFile :=
    { filename := filename, data := data, mimetype := mimetype,
      studentId := studentId }
  if db.students.any (fun s => s.id == studentId) then
    ({ db with files := filesAfterDelete ++ [studentwalletFile] },
     .ok studentwalletFile)
  else
    (db, .error .constraintViolation)

end StudentwalletWriteService

/-! Specification-side formulations used to state the claims. -/

/-- The seven parameter names the spec recognizes for `find`. -/
def recognizedParamNames : List String :=
  suchparameterNamen ++ ["art"]

/-- Some supplied parameter name is outside the recognized names. -/
def hasUnrecognizedKey (sp : Params) : Bool :=
  sp.any (fun p => !(recognizedParamNames.contains p.1))

/-- `art` is supplied with a value outside the transaction-type
enumeration (a non-string value is also outside it). -/
def hasInvalidArt (sp : Params) : Bool :=
  match getParam sp "art" with
  | none => false
  | some (JsValue.str s) => !(transactionTypeValues.contains s)
  | some (JsValue.num _) => true

/-- A quoted integer of exactly `k` digits sits at the front of `l`:
a double quote, then `k` decimal digits, then a double quote. -/
def quotedIntAt (l : List Char) (k : Nat) : Bool :=
  l.head? == some '"' && ((l.drop 1).take k).length == k &&
  ((l.drop 1).take k).all Char.isDigit && (l.drop (1 + k)).head? == some '"'

/-- Positional statement of the token shapes the version-format check
accepts: the string starts with a double quote, one to three decimal
digits, and a closing double quote (anything may follow). -/
def shortQuotedIntFormat (s : String) : Bool :=
  [1, 2, 3].any (fun k => quotedIntAt s.data k)

/-- The claim's notion of a quoted-integer version token: the whole string
is a double quote, one or more decimal digits, and a closing double
quote — with no bound on the digit count and nothing after the closing
quote. -/
def claimQuotedInteger (s : String) : Bool :=
  s.data.head? == some '"' && s.data.getLast? == some '"' &&
  decide (3 ≤ s.data.length) && ((s.data.drop 1).dropLast.all Char.isDigit)

/-! Concrete database states used by witnesses and counterexamples. -/

/-- A sample student row. -/
def alex : Student :=
  { id := 1, version := 0, matriculationNumber := "85625",
    firstName := "Alex", lastName := "Tatar", email := "alex@stud.hs",
    semester := 1, transactions := [{ type := "LOAD" }] }

/-- A second sample student row. -/
def bob : Student :=
  { id := 2, version := 0, matriculationNumber := "85635",
    firstName := "Bob", lastName := "Kim", email := "bob@stud.hs",
    semester := 2, transactions := [] }

/-- A sample database with two students. -/
def sampleDB : DB := { students := [alex, bob], files := [], nextId := 1000 }

/-- A database whose single student has gone through many updates, so its
persisted version needs four digits. -/
def highVersionDB : DB :=
  { students := [{ alex with version := 2000 }], files := [], nextId := 1000 }

/-! Helper lemmas. -/

/-- `findById` succeeds exactly on the first stored row carrying the id. -/
theorem findById_eq_some (db : DB) (id : Int) (s : Student) :
    StudentwalletService.findById db id = .ok s ↔
      db.students.find? (fun t => t.id == id) = some s := by
  unfold StudentwalletService.findById
  cases h : db.students.find? (fun t => t.id == id) <;> simp [h]

/-- Applying a patch never changes the row id. -/
theorem applyPatch_id (patch : StudentUpdate) (s : Student) :
    (StudentwalletWriteService.applyPatch patch s).id = s.id := rfl

/-- Rewriting the rows with the id through an id-preserving function moves
`find?` through the map. -/
theorem find?_map_ite (l : List Student) (id : Int) (g : Student → Student)
    (hg : ∀ t : Student, (g t).id = t.id) :
    (l.map (fun t => if t.id == id then g t else t)).find? (fun t => t.id == id)
      = (l.find? (fun t => t.id == id)).map g := by
  induction l with
  | nil => rfl
  | cons a l ih =>
    cases h : (a.id == id) with
    | true =>
      have hg' : ((g a).id == id) = true := by rw [hg]; exact h
      rw [List.map_cons, if_pos h]
      simp only [List.find?_cons, hg', h]
      rfl
    | false =>
      rw [List.map_cons, if_neg (by rw [h]; decide)]
      simp only [List.find?_cons, h]
      exact ih

/-- The validation passes when the token matches the pattern, the row is
present and the parsed version is not below the persisted one. -/
theorem validateUpdate_ok (db : DB) (id : Int) (vs : String) (s : Student) (v : Int)
    (hpat : StudentwalletWriteService.versionPatternTest vs = true)
    (hfind : StudentwalletService.findById db id = .ok s)
    (hparse : jsParseInt (StudentwalletWriteService.sliceOneToNegOne vs) = some v)
    (hge : (s.version : Int) ≤ v) :
    StudentwalletWriteService.validateUpdate db id vs = .ok () := by
  simp only [StudentwalletWriteService.validateUpdate, hpat, hfind, hparse,
    Bool.not_true, Bool.false_eq_true, if_false]
  rw [if_neg (not_lt.mpr hge)]

/-- The validation raises `VersionOutdatedException` when the parsed
version is strictly below the persisted one. -/
theorem validateUpdate_outdated (db : DB) (id : Int) (vs : String) (s : Student) (v : Int)
    (hpat : StudentwalletWriteService.versionPatternTest vs = true)
    (hfind : StudentwalletService.findById db id = .ok s)
    (hparse : jsParseInt (StudentwalletWriteService.sliceOneToNegOne vs) = some v)
    (hlt : v < (s.version : Int)) :
    StudentwalletWriteService.validateUpdate db id vs = .error (.versionOutdated v) := by
  simp only [StudentwalletWriteService.validateUpdate, hpat, hfind, hparse,
    Bool.not_true, Bool.false_eq_true, if_false]
  rw [if_pos hlt]

/-- Claim C1 (amended): for every update call whose version token passes
the `VERSION_PATTERN` format check and whose parsed integer is strictly
less than the persisted student's version, `update` fails with
`VersionOutdated` and the whole database state — the persisted student and
its version field included — is unchanged. -/
theorem update_versionOutdated_rejected (db : DB) (p : UpdateParams) (id : Int)
    (s : Student) (v : Int)
    (hid : p.id = some id)
    (hpat : StudentwalletWriteService.versionPatternTest p.version = true)
    (hparse : jsParseInt (StudentwalletWriteService.sliceOneToNegOne p.version) = some v)
    (hfind : StudentwalletService.findById db id = .ok s)
    (hlt : v < (s.version : Int)) :
    StudentwalletWriteService.update db p = (db, .error (.versionOutdated v)) := by
  have hval := validateUpdate_outdated db id p.version s v hpat hfind hparse hlt
  simp only [StudentwalletWriteService.update, hid, hval]

/-- Claim C1, witness: a stale token `"3"` against persisted version 5 is
rejected as outdated and leaves the state untouched. -/
theorem update_versionOutdated_rejected_witness :
    StudentwalletWriteService.update
        { students := [{ alex with version := 5 }], files := [], nextId := 1000 }
        ⟨some 1, {}, "\"3\""⟩
      = ({ students := [{ alex with version := 5 }], files := [], nextId := 1000 },
         .error (.versionOutdated 3)) :=
  update_versionOutdated_rejected
    { students := [{ alex with version := 5 }], files := [], nextId := 1000 }
    ⟨some 1, {}, "\"3\""⟩ 1 { alex with version := 5 } 3
    rfl (by decide) (by decide) (by decide) (by decide)

/-- Claim C1, counterexample to the claim as stated: the token `"1234"`
parses (through the code's own slice-then-parse route) to 1234, which is
strictly less than the persisted version 2000, yet `update` fails with
`VersionInvalid` — not `VersionOutdated` — because the four-digit token
already fails the `VERSION_PATTERN` format check. -/
theorem update_versionOutdated_claim_counterexample :
    jsParseInt (StudentwalletWriteService.sliceOneToNegOne "\"1234\"") = some 1234 ∧
    StudentwalletService.findById highVersionDB 1 = .ok { alex with version := 2000 } ∧
    (1234 : Int) < 2000 ∧
    StudentwalletWriteService.update highVersionDB ⟨some 1, {}, "\"1234\""⟩
      = (highVersionDB, .error (.versionInvalid "\"1234\"")) ∧
    (StudentwalletWriteService.update highVersionDB ⟨some 1, {}, "\"1234\""⟩).2
      ≠ .error (.versionOutdated 1234) := by
  refine ⟨by decide, by decide, by decide, by decide, by decide⟩

/-- Claim C2: for every update call on an existing student id whose version
token passes the format check and parses to an integer at least the
persisted version, `update` succeeds, the newly persisted version is the
old one plus 1, and that number is returned. -/
theorem update_increments_version (db : DB) (p : UpdateParams) (id : Int)
    (s : Student) (v : Int)
    (hid : p.id = some id)
    (hfind : StudentwalletService.findById db id = .ok s)
    (hpat : StudentwalletWriteService.versionPatternTest p.version = true)
    (hparse : jsParseInt (StudentwalletWriteService.sliceOneToNegOne p.version) = some v)
    (hge : (s.version : Int) ≤ v) :
    (StudentwalletWriteService.update db p).2 = .ok (s.version + 1)
    ∧ StudentwalletService.findById (StudentwalletWriteService.update db p).1 id
        = .ok (StudentwalletWriteService.applyPatch p.student s)
    ∧ (StudentwalletWriteService.applyPatch p.student s).version = s.version + 1 := by
  have hval := validateUpdate_ok db id p.version s v hpat hfind hparse hge
  have hmap := find?_map_ite db.students id (StudentwalletWriteService.applyPatch p.student)
    (fun t => applyPatch_id p.student t)
  rw [(findById_eq_some db id s).mp hfind, Option.map_some'] at hmap
  have heq : StudentwalletWriteService.update db p = (({ db with students := db.students.map (fun t => if t.id == id then StudentwalletWriteService.applyPatch p.student t else t) } : DB), .ok (StudentwalletWriteService.applyPatch p.student s).version) := by
    simp only [StudentwalletWriteService.update, hid, hval, hmap]
  refine ⟨?_, ?_, rfl⟩
  · rw [heq]
    rfl
  · rw [heq]
    exact (findById_eq_some _ id _).mpr hmap

/-- Claim C2, witness: updating the sample student with token `"0"`
succeeds and moves the version from 0 to 1. -/
theorem update_increments_version_witness :
    (StudentwalletWriteService.update sampleDB ⟨some 1, {}, "\"0\""⟩).2 = .ok 1 :=
  (update_increments_version sampleDB ⟨some 1, {}, "\"0\""⟩ 1 alex 0
    rfl (by decide) (by decide) (by decide) (by decide)).1

/-- Claim C4: a create payload whose supplied matriculation number is
already persisted fails with `MatriculationExists` and returns the
database unchanged, so no row is inserted and the row count is equal. -/
theorem create_matrNrExists_rejected (db : DB) (c : StudentCreate) (m : String)
    (s : Student)
    (hm : c.matriculationNumber = some m)
    (hs : s ∈ db.students) (hsm : s.matriculationNumber = m) :
    StudentwalletWriteService.create db c = (db, .error (.matrNrExists m)) := by
  have hmem : s ∈ db.students.filter (fun t => t.matriculationNumber == m) :=
    List.mem_filter.mpr ⟨hs, by simp [hsm]⟩
  have hlen : 0 < (db.students.filter (fun t => t.matriculationNumber == m)).length :=
    List.length_pos.mpr (List.ne_nil_of_mem hmem)
  have hval : StudentwalletWriteService.validateCreate db c = .error (.matrNrExists m) := by
    unfold StudentwalletWriteService.validateCreate
    rw [hm]
    simp only [gt_iff_lt, hlen, if_true]
  simp only [StudentwalletWriteService.create, hval]

/-- Equality test of two `some` options is the equality test of their
contents. -/
theorem beq_some_some (a b : Char) : ((some a == some b) : Bool) = (a == b) := rfl

/-- The pattern test accepts precisely the positional quoted-short-integer
shapes: a double quote, one to three decimal digits, and a closing double
quote at the front of the string. -/
theorem versionPatternTest_eq_format (s : String) :
    StudentwalletWriteService.versionPatternTest s = shortQuotedIntFormat s := by
  obtain ⟨l⟩ := s
  rcases l with _ | ⟨c0, _ | ⟨c1, _ | ⟨c2, _ | ⟨c3, rest3⟩⟩⟩⟩
  · rfl
  · simp [StudentwalletWriteService.versionPatternTest, shortQuotedIntFormat, quotedIntAt]
  · simp [StudentwalletWriteService.versionPatternTest, shortQuotedIntFormat, quotedIntAt,
      beq_some_some]
  · simp only [StudentwalletWriteService.versionPatternTest, shortQuotedIntFormat,
      quotedIntAt, List.any_cons, List.any_nil, List.head?_cons, List.drop_succ_cons,
      List.drop_zero, List.take_succ_cons, List.take_zero, List.take_nil, List.length_cons,
      List.length_nil, List.all_cons, List.all_nil, List.head?_nil, beq_some_some]
    cases hb0 : (c0 == '"') <;> cases hd1 : c1.isDigit <;> cases hb2 : (c2 == '"') <;>
      cases hd2 : c2.isDigit <;> simp [hb0, hd1, hb2, hd2]
  · simp only [StudentwalletWriteService.versionPatternTest, shortQuotedIntFormat,
      quotedIntAt, List.any_cons, List.any_nil, List.head?_cons, List.drop_succ_cons,
      List.drop_zero, List.take_succ_cons, List.take_zero, List.take_nil, List.length_cons,
      List.length_nil, List.all_cons, List.all_nil, List.head?_nil, beq_some_some]
    cases hb0 : (c0 == '"') <;> cases hd1 : c1.isDigit <;> cases hb2 : (c2 == '"') <;>
      cases hd2 : c2.isDigit <;> cases hb3 : (c3 == '"') <;> cases hd3 : c3.isDigit <;>
      cases hb4 : (rest3.head? == some '"') <;> simp [hb0, hd1, hb2, hd2, hb3, hd3, hb4]

/-- `findById` fails only ever with `NotFoundException`. -/
theorem findById_error_notFound (db : DB) (id : Int) (e : Err)
    (h : StudentwalletService.findById db id = .error e) : e = .notFound := by
  unfold StudentwalletService.findById at h
  cases hf : db.students.find? (fun t => t.id == id) <;> rw [hf] at h
  · exact (Except.error.inj h).symm
  · exact absurd h (by simp)

/-- With a token that passes the pattern, the validation can fail with
`NotFound` or `VersionOutdated` but never with `VersionInvalid`. -/
theorem validateUpdate_not_invalid (db : DB) (id : Int) (vs : String)
    (hpat : StudentwalletWriteService.versionPatternTest vs = true) (e : String) :
    StudentwalletWriteService.validateUpdate db id vs ≠ .error (.versionInvalid e) := by
  simp only [StudentwalletWriteService.validateUpdate, hpat, Bool.not_true,
    Bool.false_eq_true, if_false]
  cases hf : StudentwalletService.findById db id with
  | error e' =>
    have := findById_error_notFound db id e' hf
    subst this
    simp
  | ok b =>
    cases hj : jsParseInt (StudentwalletWriteService.sliceOneToNegOne vs) with
    | none => simp
    | some v =>
      by_cases hlt : v < (b.version : Int) <;> simp [hlt]

/-- Claim C3 (amended): `update` fails with `VersionInvalid` exactly when
the supplied version token does not start with a double quote, one to
three decimal digits, and a closing double quote; trailing characters
after the closing quote are allowed, and a quoted integer of four or more
digits is rejected. -/
theorem update_versionInvalid_iff (db : DB) (p : UpdateParams) (id : Int)
    (hid : p.id = some id) :
    (StudentwalletWriteService.update db p).2 = .error (.versionInvalid p.version)
      ↔ shortQuotedIntFormat p.version = false := by
  rw [← versionPatternTest_eq_format]
  by_cases hpat : StudentwalletWriteService.versionPatternTest p.version = true
  · have hne : (StudentwalletWriteService.update db p).2
        ≠ .error (.versionInvalid p.version) := by
      simp only [StudentwalletWriteService.update, hid]
      cases hv : StudentwalletWriteService.validateUpdate db id p.version with
      | error e =>
        simp only []
        intro hcon
        exact validateUpdate_not_invalid db id p.version hpat p.version
          (hv.trans (congrArg Except.error (Except.error.inj hcon)))
      | ok u =>
        cases hfm : (db.students.map (fun t => if t.id == id then StudentwalletWriteService.applyPatch p.student t else t)).find? (fun t => t.id == id) <;>
          simp [hfm]
    simp [hne, hpat]
  · have hpf : StudentwalletWriteService.versionPatternTest p.version = false := by
      simpa using hpat
    have hval : StudentwalletWriteService.validateUpdate db id p.version
        = .error (.versionInvalid p.version) := by
      unfold StudentwalletWriteService.validateUpdate
      rw [hpf]
      rfl
    simp only [StudentwalletWriteService.update, hid, hval]
    simp [hpf]

/-- Claim C3, witness: a token that is no quoted integer at all is
rejected with `VersionInvalid`. -/
theorem update_versionInvalid_iff_witness :
    (StudentwalletWriteService.update sampleDB ⟨some 1, {}, "bogus"⟩).2
      = .error (.versionInvalid "bogus") :=
  (update_versionInvalid_iff sampleDB ⟨some 1, {}, "bogus"⟩ 1 rfl).mpr (by decide)

/-- Claim C3, counterexample to the claim as stated: `"1234"` is a decimal
integer enclosed in double quotes yet fails the format check, and
`"3"xyz` is no quoted integer yet passes it (the update proceeds and does
not raise `VersionInvalid`). -/
theorem update_versionInvalid_claim_counterexample :
    claimQuotedInteger "\"1234\"" = true ∧
    (StudentwalletWriteService.update highVersionDB ⟨some 1, {}, "\"1234\""⟩).2
      = .error (.versionInvalid "\"1234\"") ∧
    claimQuotedInteger "\"3\"xyz" = false ∧
    (StudentwalletWriteService.update sampleDB ⟨some 1, {}, "\"3\"xyz"⟩).2
      ≠ .error (.versionInvalid "\"3\"xyz") := by
  refine ⟨by decide, by decide, by decide, by decide⟩

/-- Claim C4, witness: creating a second student with the sample student's
matriculation number 85625 is rejected and the database is unchanged. -/
theorem create_matrNrExists_rejected_witness :
    StudentwalletWriteService.create sampleDB
        { matriculationNumber := some "85625", firstName := "Neu",
          lastName := "Neu", email := "neu@stud.hs", semester := 1 }
      = (sampleDB, .error (.matrNrExists "85625")) :=
  create_matrNrExists_rejected sampleDB
    { matriculationNumber := some "85625", firstName := "Neu",
      lastName := "Neu", email := "neu@stud.hs", semester := 1 }
    "85625" alex rfl (by decide) rfl

/-- The predicate built from an empty search-parameter record matches
every row. -/
theorem matchesWhere_build_nil (s : Student) :
    matchesWhere (WhereBuilder.build []) s = true := rfl

/-- An unfiltered page and a page for the match-all predicate agree. -/
theorem pageFor_build_nil (db : DB) (pg : Pageable) :
    StudentwalletService.pageFor db (WhereBuilder.build []) pg
      = (db.students.drop (pg.number * pg.size)).take pg.size := by
  unfold StudentwalletService.pageFor
  rw [List.filter_eq_self.mpr (fun a _ => matchesWhere_build_nil a)]

/-- The recognized seven-name list splits into the six declared names and
the literal `art`, matching the disjunction `#checkKeys` tests. -/
theorem recognized_contains (k : String) :
    recognizedParamNames.contains k = (suchparameterNamen.contains k || (k == "art")) := by
  simp only [recognizedParamNames, suchparameterNamen, List.cons_append, List.nil_append,
    List.contains_cons, List.contains_nil, Bool.or_false, Bool.or_assoc]

/-- `#checkKeys` passes exactly when no supplied name is unrecognized. -/
theorem checkKeys_eq_not_unrecognized (sp : Params) :
    StudentwalletService.checkKeys (sp.map Prod.fst) = !(hasUnrecognizedKey sp) := by
  unfold StudentwalletService.checkKeys hasUnrecognizedKey
  induction sp with
  | nil => rfl
  | cons a l ih =>
    simp only [List.map_cons, List.all_cons, List.any_cons, Bool.not_or, Bool.not_not, ih]
    congr 1
    simp only [recognized_contains]

/-- `#checkEnums` passes exactly when `art` is absent or carries one of the
three enumeration values. -/
theorem checkEnums_eq_not_invalidArt (sp : Params) :
    StudentwalletService.checkEnums sp = !(hasInvalidArt sp) := by
  unfold StudentwalletService.checkEnums hasInvalidArt
  cases h : getParam sp "art" with
  | none => rfl
  | some v => cases v <;> simp

/-- A successful `#findAll` slice carries the unconditional row count. -/
theorem findAll_ok_total (db : DB) (pg : Pageable) (sl : Slice)
    (h : StudentwalletService.findAll db pg = .ok sl) :
    sl.totalElements = db.students.length := by
  unfold StudentwalletService.findAll at h
  split at h
  · exact absurd h (by simp)
  · rw [← Except.ok.inj h]
    rfl

/-- `#findAll` fails exactly on an empty page, and a success carries a
non-empty page. -/
theorem findAll_spec (db : DB) (pg : Pageable) :
    (StudentwalletService.findAll db pg = .error .notFound
      ↔ ((db.students.drop (pg.number * pg.size)).take pg.size).isEmpty = true)
    ∧ (∀ sl, StudentwalletService.findAll db pg = .ok sl → sl.content ≠ []) := by
  unfold StudentwalletService.findAll
  cases h : ((db.students.drop (pg.number * pg.size)).take pg.size).isEmpty with
  | true => simp [h]
  | false =>
    refine ⟨by simp [h], ?_⟩
    intro sl hsl
    rw [if_neg (by decide)] at hsl
    rw [← Except.ok.inj hsl]
    exact List.isEmpty_eq_false.mp h

/-- Claim C5: `find` fails with `NotFound` exactly when a supplied
parameter name is unrecognized, or `art` carries a value outside the
enumeration, or the fetched page of results is empty; otherwise the
returned slice is non-empty. -/
theorem find_notFound_iff (db : DB) (sp? : Option Params) (pg : Pageable) :
    (StudentwalletService.find db sp? pg = .error .notFound
      ↔ (hasUnrecognizedKey (sp?.getD []) || hasInvalidArt (sp?.getD [])
          || (StudentwalletService.pageFor db (WhereBuilder.build (sp?.getD [])) pg).isEmpty)
        = true)
    ∧ (∀ sl, StudentwalletService.find db sp? pg = .ok sl → sl.content ≠ []) := by
  have hnil :
      (StudentwalletService.findAll db pg = .error .notFound
        ↔ (hasUnrecognizedKey ([] : Params) || hasInvalidArt ([] : Params)
            || (StudentwalletService.pageFor db (WhereBuilder.build ([] : Params)) pg).isEmpty)
          = true)
      ∧ (∀ sl, StudentwalletService.findAll db pg = .ok sl → sl.content ≠ []) := by
    rw [pageFor_build_nil]
    exact findAll_spec db pg
  cases sp? with
  | none => simpa using hnil
  | some sp =>
    by_cases hsp : sp.isEmpty = true
    · have : sp = [] := List.isEmpty_iff.mp hsp
      subst this
      simpa [StudentwalletService.find] using hnil
    · have hu := checkKeys_eq_not_unrecognized sp
      have ha := checkEnums_eq_not_invalidArt sp
      simp only [StudentwalletService.find, Option.getD_some]
      rw [if_neg hsp]
      cases hk : hasUnrecognizedKey sp with
      | true =>
        rw [if_pos (by rw [hu, ha]; simp [hk])]
        simp
      | false =>
        cases he : hasInvalidArt sp with
        | true =>
          rw [if_pos (by rw [hu, ha]; simp [he])]
          simp
        | false =>
          rw [if_neg (by rw [hu, ha]; simp [hk, he])]
          cases hpage : (StudentwalletService.pageFor db (WhereBuilder.build sp) pg).isEmpty with
          | true => simp
          | false =>
            refine ⟨by simp, ?_⟩
            intro sl hsl
            rw [if_neg (by decide)] at hsl
            rw [← Except.ok.inj hsl]
            exact List.isEmpty_eq_false.mp hpage

/-- Claim C5, witness: an unrecognized parameter name fails with
`NotFound`, and a successful filtered fetch returns a non-empty slice. -/
theorem find_notFound_iff_witness :
    StudentwalletService.find sampleDB (some [("foo", JsValue.str "bar")]) ⟨0, 10⟩
      = .error .notFound
    ∧ ({ content := [alex], totalElements := 2 } : Slice).content ≠ [] :=
  ⟨(find_notFound_iff sampleDB (some [("foo", JsValue.str "bar")]) ⟨0, 10⟩).1.mpr (by decide),
   (find_notFound_iff sampleDB (some [("firstName", JsValue.str "al")]) ⟨0, 10⟩).2
     { content := [alex], totalElements := 2 } (by decide)⟩

/-- Claim C8 (amended): the `totalElements` of every successful `find`
slice is the unconditional student row count — `count()` counts the whole
table — which coincides with the number of rows matching the predicate
only when the predicate matches everything. -/
theorem find_totalElements_eq_row_count (db : DB) (sp? : Option Params) (pg : Pageable)
    (sl : Slice) (h : StudentwalletService.find db sp? pg = .ok sl) :
    sl.totalElements = db.students.length := by
  cases sp? with
  | none => exact findAll_ok_total db pg sl h
  | some sp =>
    simp only [StudentwalletService.find] at h
    split at h
    · exact findAll_ok_total db pg sl h
    · split at h
      · exact absurd h (by simp)
      · split at h
        · exact absurd h (by simp)
        · rw [← Except.ok.inj h]
          rfl

/-- Claim C8, witness: an unfiltered fetch over the two-row sample
database reports two total elements, the row count. -/
theorem find_totalElements_eq_row_count_witness :
    ({ content := [alex, bob], totalElements := 2 } : Slice).totalElements
      = sampleDB.students.length :=
  find_totalElements_eq_row_count sampleDB none ⟨0, 10⟩
    { content := [alex, bob], totalElements := 2 } (by decide)

/-- Claim C8, counterexample to the claim as stated: filtering the sample
database by `semester=1` matches exactly one of the two rows, yet the
returned slice reports `totalElements = 2`, the unfiltered row count. -/
theorem find_totalElements_claim_counterexample :
    StudentwalletService.find sampleDB (some [("semester", JsValue.str "1")]) ⟨0, 10⟩
      = .ok { content := [alex], totalElements := 2 }
    ∧ (sampleDB.students.filter
        (matchesWhere (WhereBuilder.build [("semester", JsValue.str "1")]))).length = 1
    ∧ (2 : Nat) ≠ 1 := by
  refine ⟨by decide, by decide, by decide⟩

/-- Claim C6: `build` is a total function into predicate objects — it can
never raise — and it omits every field that is absent from the input; an
`id` or `semester` whose integer parse fails (`toInt` yields `undefined`)
is silently omitted as well, and the empty input yields the empty
predicate, which matches every row. -/
theorem build_total_omits_absent (sp : Params) :
    WhereBuilder.build ([] : Params) = {}
    ∧ (∀ s : Student, matchesWhere (WhereBuilder.build []) s = true)
    ∧ (WhereBuilder.toInt (getParam sp "id") = none → (WhereBuilder.build sp).id = none)
    ∧ (WhereBuilder.toInt (getParam sp "semester") = none
        → (WhereBuilder.build sp).semester = none)
    ∧ (getParam sp "matriculationNumber" = none
        → (WhereBuilder.build sp).matriculationNumber = none)
    ∧ (getParam sp "firstName" = none → (WhereBuilder.build sp).firstName = none)
    ∧ (getParam sp "lastName" = none → (WhereBuilder.build sp).lastName = none)
    ∧ (getParam sp "email" = none → (WhereBuilder.build sp).email = none)
    ∧ (getParam sp "art" = none → (WhereBuilder.build sp).transactions = none) := by
  refine ⟨rfl, fun s => rfl, ?_, ?_, ?_, ?_, ?_, ?_, ?_⟩ <;> intro h <;>
    simp [WhereBuilder.build, h]

/-- Claim C6, witness: an unparseable `id` is dropped, and every field
that is not supplied stays out of the predicate. -/
theorem build_total_omits_absent_witness :
    (WhereBuilder.build [("id", JsValue.str "abc")]).id = none
    ∧ (WhereBuilder.build [("id", JsValue.str "abc")]).semester = none
    ∧ (WhereBuilder.build [("id", JsValue.str "abc")]).matriculationNumber = none
    ∧ (WhereBuilder.build [("id", JsValue.str "abc")]).firstName = none
    ∧ (WhereBuilder.build [("id", JsValue.str "abc")]).lastName = none
    ∧ (WhereBuilder.build [("id", JsValue.str "abc")]).email = none
    ∧ (WhereBuilder.build [("id", JsValue.str "abc")]).transactions = none :=
  ⟨(build_total_omits_absent [("id", JsValue.str "abc")]).2.2.1 (by decide),
   (build_total_omits_absent [("id", JsValue.str "abc")]).2.2.2.1 (by decide),
   (build_total_omits_absent [("id", JsValue.str "abc")]).2.2.2.2.1 (by decide),
   (build_total_omits_absent [("id", JsValue.str "abc")]).2.2.2.2.2.1 (by decide),
   (build_total_omits_absent [("id", JsValue.str "abc")]).2.2.2.2.2.2.1 (by decide),
   (build_total_omits_absent [("id", JsValue.str "abc")]).2.2.2.2.2.2.2.1 (by decide),
   (build_total_omits_absent [("id", JsValue.str "abc")]).2.2.2.2.2.2.2.2 (by decide)⟩

/-- A decimal digit never compares equal to a non-digit character. -/
theorem digit_beq_false (c d : Char) (h : c.isDigit = true) (hd : d.isDigit = false) :
    (c == d) = false := by
  cases hc : c == d
  · rfl
  · rw [eq_of_beq hc] at h
    rw [h] at hd
    exact Bool.noConfusion hd

/-- A decimal digit is not `parseInt` whitespace. -/
theorem digit_not_ws (c : Char) (h : c.isDigit = true) : jsWhitespace c = false := by
  unfold jsWhitespace
  rw [digit_beq_false c ' ' h (by decide), digit_beq_false c '\t' h (by decide),
    digit_beq_false c '\n' h (by decide), digit_beq_false c '\r' h (by decide),
    digit_beq_false c '\x0b' h (by decide), digit_beq_false c '\x0c' h (by decide)]
  rfl

/-- Taking digits from a digit run followed by a non-digit remainder
yields exactly the run. -/
theorem takeWhile_digits_append (ds rest : List Char)
    (hds : ∀ c ∈ ds, c.isDigit = true)
    (hrest : ∀ c, rest.head? = some c → c.isDigit = false) :
    (ds ++ rest).takeWhile Char.isDigit = ds := by
  induction ds with
  | nil =>
    cases rest with
    | nil => rfl
    | cons r t =>
      have hr := hrest r rfl
      simp [List.takeWhile_cons, hr]
  | cons d ds ih =>
    have hd := hds d (by simp)
    simp [List.cons_append, List.takeWhile_cons, hd,
      ih (fun c hc => hds c (List.mem_cons_of_mem d hc))]

/-- `parseInt`'s digit consumption on a digit run followed by a non-digit
remainder returns the run's value. -/
theorem parseDigits_digits (d : Char) (ds rest : List Char)
    (hds : ∀ c ∈ d :: ds, c.isDigit = true)
    (hrest : ∀ c, rest.head? = some c → c.isDigit = false) :
    parseDigits ((d :: ds) ++ rest) = some (digitsVal (d :: ds)) := by
  unfold parseDigits
  rw [takeWhile_digits_append (d :: ds) rest hds hrest]
  rfl

/-- `Number.parseInt` on a string that starts with a digit run followed by
a non-digit remainder returns the value of the run. -/
theorem jsParseInt_digits (d : Char) (ds rest : List Char)
    (hds : ∀ c ∈ d :: ds, c.isDigit = true)
    (hrest : ∀ c, rest.head? = some c → c.isDigit = false) :
    jsParseInt (String.mk ((d :: ds) ++ rest)) = some ((digitsVal (d :: ds) : Int)) := by
  have hd : d.isDigit = true := hds d (by simp)
  have key : (String.mk ((d :: ds) ++ rest)).data.dropWhile jsWhitespace
      = d :: (ds ++ rest) := by
    show (d :: (ds ++ rest)).dropWhile jsWhitespace = d :: (ds ++ rest)
    rw [List.dropWhile_cons, digit_not_ws d hd]
    rfl
  unfold jsParseInt
  rw [key]
  simp only [digit_beq_false d '-' hd (by decide), digit_beq_false d '+' hd (by decide),
    Bool.false_eq_true, if_false]
  rw [← List.cons_append, parseDigits_digits d ds rest hds hrest]
  rfl

/-- Claim C9: for a string `id` or `semester` value consisting of a
non-empty run of decimal digits followed by a non-digit remainder (such as
`3abc`), `build` does not omit the field: it emits an equality filter on
the value of the digit run; only values whose parse yields NaN are
omitted. -/
theorem build_uses_integer_run (d : Char) (ds rest : List Char)
    (hds : ∀ c ∈ d :: ds, c.isDigit = true)
    (hrest : ∀ c, rest.head? = some c → c.isDigit = false) :
    (WhereBuilder.build [("id", JsValue.str (String.mk ((d :: ds) ++ rest)))]).id
        = some { equals := (digitsVal (d :: ds) : Int) }
    ∧ (WhereBuilder.build
        [("semester", JsValue.str (String.mk ((d :: ds) ++ rest)))]).semester
        = some { equals := (digitsVal (d :: ds) : Int) }
    ∧ (∀ s : String, jsParseInt s = none →
        (WhereBuilder.build [("id", JsValue.str s)]).id = none
        ∧ (WhereBuilder.build [("semester", JsValue.str s)]).semester = none) := by
  have hp := jsParseInt_digits d ds rest hds hrest
  refine ⟨?_, ?_, fun s hs => ⟨?_, ?_⟩⟩
  · show (jsParseInt (String.mk ((d :: ds) ++ rest))).map
        (fun n => ({ equals := n } : IntEqFilter)) = _
    rw [hp]
    rfl
  · show (jsParseInt (String.mk ((d :: ds) ++ rest))).map
        (fun n => ({ equals := n } : IntEqFilter)) = _
    rw [hp]
    rfl
  · show (jsParseInt s).map (fun n => ({ equals := n } : IntEqFilter)) = none
    rw [hs]
    rfl
  · show (jsParseInt s).map (fun n => ({ equals := n } : IntEqFilter)) = none
    rw [hs]
    rfl

/-- Claim C9, witness: the value `3abc` produces an equality filter on 3. -/
theorem build_uses_integer_run_witness :
    (WhereBuilder.build
      [("id", JsValue.str (String.mk (('3' :: []) ++ ['a', 'b', 'c'])))]).id
        = some { equals := (digitsVal ('3' :: []) : Int) } :=
  (build_uses_integer_run '3' [] ['a', 'b', 'c']
    (fun c hc => by rw [List.mem_singleton.mp hc]; decide)
    (fun c hc => by rw [← Option.some.inj hc]; decide)).1

/-- Claim C10: the builder validates nothing about `art` — every supplied
value, enumeration member or not, is passed through as a filter demanding
some transaction of exactly that value — and the enumeration-membership
test lives in `#checkEnums`, which `find` consults and the builder never
does. -/
theorem build_art_passthrough :
    (∀ sp : Params, (WhereBuilder.build sp).transactions
        = (getParam sp "art").map (fun v => { someTypeEquals := v }))
    ∧ (∀ (a : JsValue) (st : Student),
        matchesWhere (WhereBuilder.build [("art", a)]) st
          = st.transactions.any (fun t => JsValue.str t.type == a))
    ∧ (∀ s : String, StudentwalletService.checkEnums [("art", JsValue.str s)]
        = transactionTypeValues.contains s) :=
  ⟨fun _ => rfl, fun _ _ => rfl, fun _ => rfl⟩

/-- Claim C7 (code bug): on a database with no student 999, `addFile` for
id 999 does fail and inserts nothing — but through the store's foreign-key
constraint, not through the service's existence confirmation: the
`findUnique` result is an unawaited promise, never `null`, so the
`NotFoundException` branch can never fire and the error is not
`NotFound`. -/
theorem addFile_missing_student_not_notFound :
    sampleDB.students.all (fun s => !(s.id == (999 : Int))) = true
    ∧ StudentwalletWriteService.addFile sampleDB 999 [1, 2, 3] "foto.bin" 3
        = (sampleDB, .error .constraintViolation)
    ∧ (StudentwalletWriteService.addFile sampleDB 999 [1, 2, 3] "foto.bin" 3).2
        ≠ .error Err.notFound := by
  refine ⟨by decide, by decide, by decide⟩

end Studentwallet
